import Mathlib

/-!
Verification of `samcli/local/lambda_service/local_lambda_invoke_service.py`,
the local Lambda invoke service: request validation, sync/async dispatch and
response shaping.  Python byte strings are modelled as `List Nat` (each entry
a byte value), `bytes.decode('utf-8')` as an explicit strict UTF-8 decoder
returning `Option String`, and `json.loads` acceptance as an executable
recognizer of the JSON grammar.  External collaborators that are not part of
the source file (error-response constructors, the output parser, the stream
writer) are modelled from the specification, as marked on each definition.
-/

/-- Model of Python `bytes.decode('utf-8')` continuation-byte test:
a byte in the range 0x80..0xBF. -/
def contByte (b : Nat) : Bool := 128 ≤ b && b ≤ 191

/-- Scalar value assembled from a 2-byte UTF-8 sequence. -/
def cp2 (b c1 : Nat) : Nat := (b - 192) * 64 + (c1 - 128)

/-- Scalar value assembled from a 3-byte UTF-8 sequence. -/
def cp3 (b c1 c2 : Nat) : Nat := (b - 224) * 4096 + (c1 - 128) * 64 + (c2 - 128)

/-- Scalar value assembled from a 4-byte UTF-8 sequence. -/
def cp4 (b c1 c2 c3 : Nat) : Nat :=
  (b - 240) * 262144 + (c1 - 128) * 4096 + (c2 - 128) * 64 + (c3 - 128)

/-- Strict UTF-8 decoder over a list of byte values: rejects overlong
encodings, surrogates and values above U+10FFFF, exactly as Python's
`bytes.decode('utf-8')` does.  Returns the decoded characters or `none`
on the first invalid sequence. -/
def utf8DecodeChars : List Nat → Option (List Char)
  | [] => some []
  | b :: rest =>
    if b < 128 then
      (utf8DecodeChars rest).map (fun cs => Char.ofNat b :: cs)
    else if 194 ≤ b && b ≤ 223 then
      match rest with
      | c1 :: rest1 =>
        if contByte c1 then
          (utf8DecodeChars rest1).map (fun cs => Char.ofNat (cp2 b c1) :: cs)
        else none
      | _ => none
    else if 224 ≤ b && b ≤ 239 then
      match rest with
      | c1 :: c2 :: rest2 =>
        let lo1 : Nat := if b = 224 then 160 else 128
        let hi1 : Nat := if b = 237 then 159 else 191
        if (lo1 ≤ c1 && c1 ≤ hi1) && contByte c2 then
          (utf8DecodeChars rest2).map (fun cs => Char.ofNat (cp3 b c1 c2) :: cs)
        else none
      | _ => none
    else if 240 ≤ b && b ≤ 244 then
      match rest with
      | c1 :: c2 :: c3 :: rest3 =>
        let lo1 : Nat := if b = 240 then 144 else 128
        let hi1 : Nat := if b = 244 then 143 else 191
        if ((lo1 ≤ c1 && c1 ≤ hi1) && contByte c2) && contByte c3 then
          (utf8DecodeChars rest3).map (fun cs => Char.ofNat (cp4 b c1 c2 c3) :: cs)
        else none
      | _ => none
    else none

/-- Model of Python `bytes.decode('utf-8')`: `none` models the raised
`UnicodeDecodeError`. -/
def utf8Decode (bs : List Nat) : Option String :=
  (utf8DecodeChars bs).map (fun cs => String.mk cs)

/-- Hexadecimal digit test for JSON `\\u` escapes. -/
def hexDigit (c : Char) : Bool :=
  c.isDigit || ('a' ≤ c && c ≤ 'f') || ('A' ≤ c && c ≤ 'F')

/-- JSON insignificant whitespace, as accepted by `json.loads`. -/
def jsonWs (c : Char) : Bool := c = ' ' || c = '\t' || c = '\n' || c = '\r'

/-- Drop leading JSON whitespace. -/
def skipWs : List Char → List Char
  | [] => []
  | c :: cs => if jsonWs c then skipWs cs else c :: cs

/-- Consume an expected literal word, returning the rest on success. -/
def eatLit : List Char → List Char → Option (List Char)
  | [], s => some s
  | l :: ls, c :: cs => if c = l then eatLit ls cs else none
  | _ :: _, [] => none

/-- Consume a run of decimal digits, returning count and rest. -/
def eatDigits : List Char → Nat × List Char
  | [] => (0, [])
  | c :: cs =>
    if c.isDigit then
      let r := eatDigits cs
      (r.1 + 1, r.2)
    else (0, c :: cs)

/-- Consume the body of a JSON string after the opening quote, including
escape sequences, up to and including the closing quote. -/
def eatStringRest : List Char → Option (List Char)
  | [] => none
  | c :: cs =>
    if c = '"' then some cs
    else if c = '\\' then
      match cs with
      | [] => none
      | e :: cs1 =>
        if e = '"' || e = '\\' || e = '/' || e = 'b' || e = 'f' ||
            e = 'n' || e = 'r' || e = 't' then
          eatStringRest cs1
        else if e = 'u' then
          match cs1 with
          | h1 :: h2 :: h3 :: h4 :: cs2 =>
            if hexDigit h1 && hexDigit h2 && hexDigit h3 && hexDigit h4 then
              eatStringRest cs2
            else none
          | _ => none
        else none
    else if c.toNat < 32 then none
    else eatStringRest cs

/-- Consume the integer part of a JSON number (after any minus sign):
either a single 0 or a nonzero digit followed by digits. -/
def eatInt : List Char → Option (List Char)
  | [] => none
  | c :: cs =>
    if c = '0' then some cs
    else if c.isDigit then some (eatDigits cs).2
    else none

/-- Consume the optional fraction part of a JSON number. -/
def eatFrac : List Char → Option (List Char)
  | [] => some []
  | c :: cs =>
    if c = '.' then
      let r := eatDigits cs
      if r.1 = 0 then none else some r.2
    else some (c :: cs)

/-- Consume the optional exponent part of a JSON number. -/
def eatExp : List Char → Option (List Char)
  | [] => some []
  | c :: cs =>
    if c = 'e' || c = 'E' then
      let cs1 := match cs with
        | d :: ds => if d = '+' || d = '-' then ds else d :: ds
        | [] => []
      let r := eatDigits cs1
      if r.1 = 0 then none else some r.2
    else some (c :: cs)

/-- Consume a JSON number starting at a digit, including fraction and
exponent parts. -/
def eatNumber (s : List Char) : Option (List Char) :=
  match eatInt s with
  | none => none
  | some s1 =>
    match eatFrac s1 with
    | none => none
    | some s2 => eatExp s2

mutual

/-- Recognizer for a single JSON value (with the `NaN` and `Infinity`
extensions `json.loads` accepts by default), fuelled by an upper bound on
nesting; returns the unconsumed rest on success. -/
def parseValue : Nat → List Char → Option (List Char)
  | 0, _ => none
  | _ + 1, [] => none
  | fuel + 1, c :: cs =>
    if c = 'n' then eatLit ['u', 'l', 'l'] cs
    else if c = 't' then eatLit ['r', 'u', 'e'] cs
    else if c = 'f' then eatLit ['a', 'l', 's', 'e'] cs
    else if c = 'N' then eatLit ['a', 'N'] cs
    else if c = 'I' then eatLit ['n', 'f', 'i', 'n', 'i', 't', 'y'] cs
    else if c = '"' then eatStringRest cs
    else if c = '-' then
      match cs with
      | 'I' :: cs1 => eatLit ['n', 'f', 'i', 'n', 'i', 't', 'y'] cs1
      | _ => eatNumber cs
    else if c.isDigit then eatNumber (c :: cs)
    else if c = '[' then
      let s1 := skipWs cs
      match s1 with
      | ']' :: s2 => some s2
      | _ => parseElements fuel s1
    else if c = '\x7b' then
      let s1 := skipWs cs
      match s1 with
      | '\x7d' :: s2 => some s2
      | _ => parseMembers fuel s1
    else none

/-- Recognizer for one-or-more comma-separated array elements followed by
the closing bracket. -/
def parseElements : Nat → List Char → Option (List Char)
  | 0, _ => none
  | fuel + 1, s =>
    match parseValue fuel (skipWs s) with
    | none => none
    | some s1 =>
      match skipWs s1 with
      | ',' :: s2 => parseElements fuel s2
      | ']' :: s2 => some s2
      | _ => none

/-- Recognizer for one-or-more comma-separated object members followed by
the closing brace. -/
def parseMembers : Nat → List Char → Option (List Char)
  | 0, _ => none
  | fuel + 1, s =>
    match skipWs s with
    | '"' :: s1 =>
      match eatStringRest s1 with
      | none => none
      | some s2 =>
        match skipWs s2 with
        | ':' :: s3 =>
          match parseValue fuel (skipWs s3) with
          | none => none
          | some s4 =>
            match skipWs s4 with
            | ',' :: s5 => parseMembers fuel s5
            | '\x7d' :: s5 => some s5
            | _ => none
        | _ => none
    | _ => none

end

/-- Model of Python `json.loads(s)` succeeding: the whole input is one JSON
value surrounded by optional whitespace. -/
def jsonParses (s : String) : Bool :=
  match parseValue (s.length + 1) (skipWs s.data) with
  | some rest => (skipWs rest).isEmpty
  | none => false

/-- The two-character text of an empty JSON object. -/
def emptyObjectString : String := "\x7b\x7d"

/-- The byte string the service substitutes for an absent body. -/
def emptyObjectBytes : List Nat := [123, 125]

/-- Outbound HTTP response, per the spec's ServiceResponse data model:
body (or absent), headers, status code. -/
structure ServiceResponse where
  body : Option String
  headers : List (String × String)
  statusCode : Nat
  deriving DecidableEq

/-- Inbound Flask request as seen by this service: raw body bytes
(`get_data`, empty when absent), query parameters (`args`), headers. -/
structure FlaskRequest where
  body : List Nat
  args : List (String × String)
  headers : List (String × String)
  deriving DecidableEq

/-- ASCII case folding of a header name, character by character. -/
def lowerKey (s : String) : String :=
  String.mk (s.data.map (fun c =>
    if 65 ≤ c.toNat ∧ c.toNat ≤ 90 then Char.ofNat (c.toNat + 32) else c))

/-- Case-insensitive header lookup.  Modelled from the spec:
`CaseInsensitiveDict` (defined in `base_local_service.py`, which is not under
src/) and Flask's own request-header mapping both look keys up
case-insensitively. -/
def headersGet (hs : List (String × String)) (key : String) : Option String :=
  (hs.find? (fun p => lowerKey p.1 == lowerKey key)).map (fun p => p.2)

/-- Modelled from the spec: the ErrorBody schema — `errorMessage` plus an
`errorType` classification tag, serialized as JSON
(`lambda_error_responses.py` is not under src/). -/
def errorBody (etype msg : String) : String :=
  "\x7b\"errorType\": \"" ++ etype ++ "\", \"errorMessage\": \"" ++ msg ++ "\"\x7d"

/-- Modelled from the spec: `BaseLocalService.service_response`, the single
constructor for outbound responses (`base_local_service.py` is not under
src/). -/
def service_response (body : Option String) (headers : List (String × String))
    (statusCode : Nat) : ServiceResponse :=
  { body := body, headers := headers, statusCode := statusCode }

/-- Modelled from the spec: `LambdaErrorResponses.invalid_request_content` —
malformed JSON body or query parameters present map to a 400 response whose
JSON body carries the message. -/
def invalid_request_content (msg : String) : ServiceResponse :=
  service_response (some (errorBody ("InvalidRequestContent") msg))
    [("Content-Type", "application/json")] 400

/-- Modelled from the spec: `LambdaErrorResponses.not_implemented_locally` —
unsupported log-type / invocation-type values map to a 501-class response
whose JSON body carries the message. -/
def not_implemented_locally (msg : String) : ServiceResponse :=
  service_response (some (errorBody ("NotImplemented") msg))
    [("Content-Type", "application/json")] 501

/-- Modelled from the spec: `LambdaErrorResponses.resource_not_found` —
function not found maps to a 404 response whose message names the missing
function. -/
def resource_not_found (function_name : String) : ServiceResponse :=
  service_response
    (some (errorBody ("ResourceNotFound") ("Function not found: " ++ function_name)))
    [("Content-Type", "application/json")] 404

/-- Modelled from the spec: `LambdaErrorResponses.generic_service_exception` —
the registered handler for unhandled transport faults, a 500 response with a
generic service-exception body. -/
def generic_service_exception : ServiceResponse :=
  service_response (some (errorBody ("ServiceException") ("ServiceException")))
    [("Content-Type", "application/json")] 500

/-- Modelled from the spec: `LambdaErrorResponses.generic_path_not_found` —
the registered handler for unmatched paths, a 404 response. -/
def generic_path_not_found : ServiceResponse :=
  service_response (some (errorBody ("PathNotFoundException") ("PathNotFoundException")))
    [("Content-Type", "application/json")] 404

/-- Modelled from the spec: `LambdaErrorResponses.generic_method_not_allowed`
— the registered handler for an unsupported HTTP method on a known path, a
405 response. -/
def generic_method_not_allowed : ServiceResponse :=
  service_response (some (errorBody ("MethodNotAllowedException") ("MethodNotAllowedException")))
    [("Content-Type", "application/json")] 405

/-- The Python exception that can escape `validate_request` or the invoke
handler: the `UnicodeDecodeError` raised by `bytes.decode` on invalid UTF-8
(raised outside the `try` that guards `json.loads`). -/
inductive PyException where
  | unicodeDecodeError
  deriving DecidableEq

deriving instance DecidableEq for Except

/-- The body normalization both `validate_request` and
`_invoke_request_handler` perform: `if not request_data: request_data = b'\x7b\x7d'`. -/
def normalizedBody (req : FlaskRequest) : List Nat :=
  if req.body = [] then emptyObjectBytes else req.body

/-- Embedding of `LocalLambdaInvokeService.validate_request`: normalize the
body, decode it as UTF-8 (a failure here is an uncaught exception), then in
order: JSON-parse check, query-parameter check, `X-Amz-Log-Type` check,
`X-Amz-Invocation-Type` check; the first failing check's error response is
returned, and `none` (pass) when all succeed. -/
def validate_request (req : FlaskRequest) : Except PyException (Option ServiceResponse) :=
  match utf8Decode (normalizedBody req) with
  | none => Except.error PyException.unicodeDecodeError
  | some request_data =>
    if jsonParses request_data = false then
      Except.ok (some (invalid_request_content
        ("Could not parse request body into json: No JSON object could be decoded")))
    else if req.args ≠ [] then
      Except.ok (some (invalid_request_content ("Query Parameters are not supported")))
    else
      let log_type := (headersGet req.headers ("X-Amz-Log-Type")).getD ("None")
      if log_type ≠ "None" then
        Except.ok (some (not_implemented_locally
          ("log-type: " ++ log_type ++ " is not supported. None is only supported.")))
      else
        let invocation_type :=
          (headersGet req.headers ("X-Amz-Invocation-Type")).getD ("RequestResponse")
        if invocation_type ∉ (["Event", "RequestResponse"] : List String) then
          Except.ok (some (not_implemented_locally
            ("invocation-type: " ++ invocation_type ++
              " is not supported. Supported types: Event, RequestResponse.")))
        else
          Except.ok none

/-- The service's collaborators and state: the execution engine
(`lambda_runner.invoke`, where `none` models a raised `FunctionNotFound` and
`some out` a normal return having written `out` to the stdout stream), the
output parser (`LambdaOutputParser.get_lambda_output`, modelled from the
spec: `parse(outputSink) -> (responseBody, logs, isUserError)`; it lives in
`base_local_service.py`, not under src/), and the optional stderr sink
modelled as the list of chunks written to it so far. -/
structure LocalLambdaInvokeService where
  lambda_runner : String → String → Option String
  get_lambda_output : String → String × String × Bool
  stderr : Option (List String)

/-- Result of one synchronous dispatch: the HTTP response, the trace of
execution-engine invocations made, and the stderr sink's contents after the
call. -/
structure SyncResult where
  response : ServiceResponse
  engine_calls : List (String × String)
  stderr_after : Option (List String)
  deriving DecidableEq

/-- Embedding of `LocalLambdaInvokeService._invoke_sync_request`: invoke the
engine (returning the 404 mapper's response on `FunctionNotFound`), parse the
captured stdout into `(response, logs, isUserError)`, write non-empty logs to
the stderr sink when one is present, and shape the 200 response, adding the
`x-amz-function-error: Unhandled` header exactly on a user error. -/
def invoke_sync_request (svc : LocalLambdaInvokeService)
    (function_name request_data : String) : SyncResult :=
  match svc.lambda_runner function_name request_data with
  | none =>
    { response := resource_not_found function_name
      engine_calls := [(function_name, request_data)]
      stderr_after := svc.stderr }
  | some stdout =>
    let parsed := svc.get_lambda_output stdout
    let lambda_response := parsed.1
    let lambda_logs := parsed.2.1
    let is_lambda_user_error_response := parsed.2.2
    let stderr_after :=
      if svc.stderr.isSome ∧ lambda_logs ≠ "" then
        svc.stderr.map (fun written => written ++ [lambda_logs])
      else svc.stderr
    if is_lambda_user_error_response then
      { response := service_response (some lambda_response)
          [("Content-Type", "application/json"), ("x-amz-function-error", "Unhandled")] 200
        engine_calls := [(function_name, request_data)]
        stderr_after := stderr_after }
    else
      { response := service_response (some lambda_response)
          [("Content-Type", "application/json")] 200
        engine_calls := [(function_name, request_data)]
        stderr_after := stderr_after }

/-- The detached thread created by `_invoke_async_request`: it captures the
target arguments of `_invoke_sync_request` and is started as a daemon. -/
structure SpawnedThread where
  target_function_name : String
  target_request_data : String
  daemon : Bool
  deriving DecidableEq

/-- Result of one asynchronous dispatch: the immediate HTTP response and the
spawned, never-joined thread. -/
structure AsyncResult where
  response : ServiceResponse
  spawned : SpawnedThread
  deriving DecidableEq

/-- Modelled from the spec: `uuid4()` generates a unique request identifier;
modelled as a fresh-identifier generator over a counter state, returning the
identifier and the next state. -/
def uuid4 (state : Nat) : Nat × Nat := (state, state + 1)

/-- Embedding of `LocalLambdaInvokeService._invoke_async_request`: generate a
request identifier (passed in here, produced by `uuid4`), spawn a daemon
thread targeting `_invoke_sync_request` with the given arguments, and return
immediately — without consulting the engine — the 202 response with no body
and the `x-amzn-requestid` header. -/
def invoke_async_request (request_id : Nat)
    (function_name request_data : String) : AsyncResult :=
  { response := service_response none [("x-amzn-requestid", toString request_id)] 202
    spawned :=
      { target_function_name := function_name
        target_request_data := request_data
        daemon := true } }

/-- Semantics of the spawned thread when the scheduler eventually runs it: it
executes `_invoke_sync_request` on the captured arguments; its result is
returned to nobody. -/
def threadRun (svc : LocalLambdaInvokeService) (t : SpawnedThread) : SyncResult :=
  invoke_sync_request svc t.target_function_name t.target_request_data

/-- Outcome of `_invoke_request_handler`: either a synchronous dispatch
result or an asynchronous one. -/
inductive HandlerResult where
  | sync (r : SyncResult)
  | async (r : AsyncResult)
  deriving DecidableEq

/-- The HTTP response carried by a handler outcome. -/
def HandlerResult.response : HandlerResult → ServiceResponse
  | HandlerResult.sync r => r.response
  | HandlerResult.async r => r.response

/-- Embedding of `LocalLambdaInvokeService._invoke_request_handler`: read the
`X-Amz-Invocation-Type` header with default `RequestResponse`, normalize an
empty body to the empty JSON object, decode it as UTF-8, and dispatch to the
asynchronous path when the invocation type is `Event`, else to the
synchronous path. -/
def invoke_request_handler (svc : LocalLambdaInvokeService) (function_name : String)
    (req : FlaskRequest) (request_id : Nat) : Except PyException HandlerResult :=
  let invocation_type :=
    (headersGet req.headers ("X-Amz-Invocation-Type")).getD ("RequestResponse")
  match utf8Decode (normalizedBody req) with
  | none => Except.error PyException.unicodeDecodeError
  | some request_data =>
    if invocation_type = "Event" then
      Except.ok (HandlerResult.async (invoke_async_request request_id function_name request_data))
    else
      Except.ok (HandlerResult.sync (invoke_sync_request svc function_name request_data))

/-- End-to-end handling of a routed request, as wired in `create` and
`_construct_error_handling`: Flask runs `validate_request` as the
before-request hook and short-circuits when it returns a response; otherwise
`_invoke_request_handler` runs; an exception escaping either is answered by
the registered 500 handler, `generic_service_exception`.  (Flask's hook and
error-handler mechanics are the external framework.) -/
def handleRequest (svc : LocalLambdaInvokeService) (function_name : String)
    (req : FlaskRequest) (request_id : Nat) : ServiceResponse :=
  match validate_request req with
  | Except.error _ => generic_service_exception
  | Except.ok (some resp) => resp
  | Except.ok none =>
    match invoke_request_handler svc function_name req request_id with
    | Except.error _ => generic_service_exception
    | Except.ok r => r.response

/-- The decoded payload the handler passes to the engine: the normalized
body's UTF-8 decoding (total-function view, defaulting to the empty string
where decoding fails). -/
def request_payload (req : FlaskRequest) : String :=
  (utf8Decode (normalizedBody req)).getD ("")

/-- Spec-side check 1 of the claimed validation pipeline: the body parses as
JSON, an empty body being treated as the empty JSON object. -/
def jsonBodyCheck (req : FlaskRequest) : Option ServiceResponse :=
  if jsonParses (request_payload req) = false then
    some (invalid_request_content
      ("Could not parse request body into json: No JSON object could be decoded"))
  else none

/-- Spec-side check 2 of the claimed validation pipeline: no query
parameters. -/
def queryParamsCheck (req : FlaskRequest) : Option ServiceResponse :=
  if req.args ≠ [] then
    some (invalid_request_content ("Query Parameters are not supported"))
  else none

/-- Spec-side check 3 of the claimed validation pipeline: `X-Amz-Log-Type`,
if present, equals `None`. -/
def logTypeCheck (req : FlaskRequest) : Option ServiceResponse :=
  let log_type := (headersGet req.headers ("X-Amz-Log-Type")).getD ("None")
  if log_type ≠ "None" then
    some (not_implemented_locally
      ("log-type: " ++ log_type ++ " is not supported. None is only supported."))
  else none

/-- Spec-side check 4 of the claimed validation pipeline:
`X-Amz-Invocation-Type`, if present, is `Event` or `RequestResponse`. -/
def invocationTypeCheck (req : FlaskRequest) : Option ServiceResponse :=
  let invocation_type :=
    (headersGet req.headers ("X-Amz-Invocation-Type")).getD ("RequestResponse")
  if invocation_type ∉ (["Event", "RequestResponse"] : List String) then
    some (not_implemented_locally
      ("invocation-type: " ++ invocation_type ++
        " is not supported. Supported types: Event, RequestResponse."))
  else none

/-- First-failure-wins composition of a list of checks, as the claimed
specification of validation describes it. -/
def firstFailure : List (FlaskRequest → Option ServiceResponse) → FlaskRequest →
    Option ServiceResponse
  | [], _ => none
  | c :: cs, req =>
    match c req with
    | some r => some r
    | none => firstFailure cs req

/-- The claimed validation pipeline: exactly these four checks in this fixed
order. -/
def validationChecks : List (FlaskRequest → Option ServiceResponse) :=
  [jsonBodyCheck, queryParamsCheck, logTypeCheck, invocationTypeCheck]

/-- Concrete execution engine for witnesses: only the function `foo` is
registered; it echoes its payload to stdout. -/
def sampleRunner (function_name request_data : String) : Option String :=
  if function_name = "foo" then some request_data else none

/-- Concrete service fixture for witnesses: `foo` registered, an output
parser that reports the whole stream as the response with fixed non-empty
logs and no user error, and an empty stderr sink present. -/
def sampleService : LocalLambdaInvokeService :=
  { lambda_runner := sampleRunner
    get_lambda_output := fun out => (out, "captured-logs", false)
    stderr := some [] }

/-- Concrete service fixture for witnesses whose output parser classifies
every outcome as a user error. -/
def errorService : LocalLambdaInvokeService :=
  { lambda_runner := sampleRunner
    get_lambda_output := fun out => (out, "", true)
    stderr := none }

/-- Concrete request fixture: empty body, no query parameters, no headers. -/
def emptyReq : FlaskRequest := { body := [], args := [], headers := [] }

/-- Concrete request fixture: empty body, `X-Amz-Invocation-Type: Event`. -/
def eventReq : FlaskRequest :=
  { body := [], args := [], headers := [("X-Amz-Invocation-Type", "Event")] }

/-- Concrete request fixture: non-empty body that is not valid UTF-8. -/
def badUtfReq : FlaskRequest := { body := [255], args := [], headers := [] }

/-- Concrete request fixture: non-UTF-8 body together with a query
parameter. -/
def badUtfQueryReq : FlaskRequest :=
  { body := [255], args := [("a", "1")], headers := [] }

/-- Concrete request fixture: empty body and one query parameter. -/
def queryReq : FlaskRequest := { body := [], args := [("a", "1")], headers := [] }

example : utf8Decode emptyObjectBytes = some emptyObjectString := by decide
example : utf8Decode [255] = none := by decide
example : jsonParses emptyObjectString = true := by decide
example : jsonParses "x" = false := by decide
example : jsonParses " \x7b\"a\": [1, 2.5e3, null, true]\x7d " = true := by decide
example : jsonParses "\x7b\"a\": 1" = false := by decide

/-- The synchronous handler invokes the execution engine exactly once, with
exactly the function name and payload it was given. -/
theorem invoke_sync_engine_calls (svc : LocalLambdaInvokeService)
    (function_name request_data : String) :
    (invoke_sync_request svc function_name request_data).engine_calls =
      [(function_name, request_data)] := by
  unfold invoke_sync_request
  cases svc.lambda_runner function_name request_data
  · rfl
  · dsimp only
    split <;> rfl

/-- The synchronous handler's HTTP response does not depend on the stderr
sink. -/
theorem invoke_sync_response_stderr_indep (svc : LocalLambdaInvokeService)
    (sink : Option (List String)) (function_name request_data : String) :
    (invoke_sync_request { svc with stderr := sink } function_name request_data).response =
      (invoke_sync_request svc function_name request_data).response := by
  unfold invoke_sync_request
  dsimp only
  cases svc.lambda_runner function_name request_data
  · rfl
  · dsimp only
    split <;> split <;> rfl

/-- A first-failure-wins pipeline passes exactly when every check passes. -/
theorem firstFailure_eq_none_iff (cs : List (FlaskRequest → Option ServiceResponse))
    (req : FlaskRequest) :
    firstFailure cs req = none ↔ ∀ c ∈ cs, c req = none := by
  induction cs with
  | nil => simp [firstFailure]
  | cons c cs ih =>
    cases hc : c req with
    | none => simp [firstFailure, hc, ih]
    | some r => simp [firstFailure, hc]

/-- Claim C2: for every Event-type request, asynchronous dispatch generates a
fresh unique request identifier (distinct generator states yield distinct
identifiers), starts the invocation on a separate detached daemon thread
targeting the synchronous handler with the given arguments, and returns a
response with no body, header `x-amzn-requestid` set to the generated
identifier, and status 202. -/
theorem async_dispatch_contract (request_id : Nat)
    (function_name request_data : String) :
    (invoke_async_request request_id function_name request_data).response.body = none ∧
    (invoke_async_request request_id function_name request_data).response.headers =
      [("x-amzn-requestid", toString request_id)] ∧
    (invoke_async_request request_id function_name request_data).response.statusCode = 202 ∧
    (invoke_async_request request_id function_name request_data).spawned =
      { target_function_name := function_name
        target_request_data := request_data
        daemon := true } ∧
    (∀ s1 s2 : Nat, s1 ≠ s2 → (uuid4 s1).1 ≠ (uuid4 s2).1) := by
  refine ⟨rfl, rfl, rfl, rfl, ?_⟩
  intro s1 s2 h
  simpa [uuid4] using h

/-- Claim C2 witness: the contract evaluated at request identifier 7,
function `foo`, payload the empty JSON object, and the identifiers generated
from the distinct states 0 and 1 differ. -/
theorem async_dispatch_contract_witness :
    (invoke_async_request 7 ("foo") (emptyObjectString)).response.statusCode = 202 ∧
    (uuid4 0).1 ≠ (uuid4 1).1 :=
  ⟨(async_dispatch_contract 7 ("foo") (emptyObjectString)).2.2.1,
    (async_dispatch_contract 7 ("foo") (emptyObjectString)).2.2.2.2 0 1 (by decide)⟩

/-- Claim C9: asynchronous dispatch returns status 202 with the generated
request identifier even when the function name is unknown to the execution
engine; the 404 function-not-found response only arises inside the spawned
thread's run, whose value is discarded — the asynchronous HTTP response
never has a body and always has status 202. -/
theorem async_unknown_function_discarded (svc : LocalLambdaInvokeService)
    (request_id : Nat) (function_name request_data : String)
    (h : svc.lambda_runner function_name request_data = none) :
    (invoke_async_request request_id function_name request_data).response.statusCode = 202 ∧
    headersGet (invoke_async_request request_id function_name request_data).response.headers
        ("x-amzn-requestid") = some (toString request_id) ∧
    (threadRun svc (invoke_async_request request_id function_name request_data).spawned).response =
      resource_not_found function_name ∧
    (resource_not_found function_name).statusCode = 404 ∧
    (∀ rid : Nat, ∀ fn d : String,
      (invoke_async_request rid fn d).response.body = none ∧
      (invoke_async_request rid fn d).response.statusCode = 202) := by
  refine ⟨rfl, ?_, ?_, rfl, fun rid fn d => ⟨rfl, rfl⟩⟩
  · simp [headersGet, invoke_async_request, service_response]
  · simp [threadRun, invoke_async_request, invoke_sync_request, h]

/-- Claim C9 witness: invoking the unregistered function `missing`
asynchronously against the sample service yields 202, while the spawned
thread's own (discarded) result is the 404 response naming `missing`. -/
theorem async_unknown_function_discarded_witness :
    (invoke_async_request 3 ("missing") (emptyObjectString)).response.statusCode = 202 ∧
    (threadRun sampleService
        (invoke_async_request 3 ("missing") (emptyObjectString)).spawned).response =
      resource_not_found ("missing") :=
  ⟨(async_unknown_function_discarded sampleService 3 ("missing") (emptyObjectString) rfl).1,
    (async_unknown_function_discarded sampleService 3 ("missing") (emptyObjectString) rfl).2.2.1⟩

/-- Claim C10: a non-empty body that is not valid UTF-8 never receives the
400 could-not-parse-JSON response: the UTF-8 decode raises before the JSON
check, validation escapes with the exception, and the request is answered by
the registered 500 generic-service-exception handler. -/
theorem invalid_utf8_body_bypasses_validation (svc : LocalLambdaInvokeService)
    (function_name : String) (req : FlaskRequest) (request_id : Nat)
    (hne : req.body ≠ []) (hdec : utf8Decode req.body = none) :
    validate_request req = Except.error PyException.unicodeDecodeError ∧
    (∀ msg : String,
      validate_request req ≠ Except.ok (some (invalid_request_content msg))) ∧
    handleRequest svc function_name req request_id = generic_service_exception ∧
    generic_service_exception.statusCode = 500 := by
  have hnorm : normalizedBody req = req.body := by simp [normalizedBody, hne]
  have hval : validate_request req = Except.error PyException.unicodeDecodeError := by
    simp [validate_request, hnorm, hdec]
  refine ⟨hval, ?_, ?_, rfl⟩
  · intro msg hmsg
    rw [hval] at hmsg
    exact Except.noConfusion hmsg
  · simp [handleRequest, hval]

/-- Claim C10 witness: the request whose body is the single byte 0xFF
escapes validation with the decode exception and is answered by the 500
generic service exception. -/
theorem invalid_utf8_body_bypasses_validation_witness :
    validate_request badUtfReq = Except.error PyException.unicodeDecodeError ∧
    handleRequest sampleService ("foo") badUtfReq 0 = generic_service_exception :=
  ⟨(invalid_utf8_body_bypasses_validation sampleService ("foo") badUtfReq 0
      (by decide) (by decide)).1,
    (invalid_utf8_body_bypasses_validation sampleService ("foo") badUtfReq 0
      (by decide) (by decide)).2.2.1⟩

/-- Claim C1: for every validated request, the invoke handler reads the
`X-Amz-Invocation-Type` header (case-insensitively) with default
`RequestResponse`; when the value is `Event` the asynchronous path is taken
and otherwise — including when the header is absent — the synchronous path
is taken. -/
theorem validated_request_dispatch (svc : LocalLambdaInvokeService)
    (function_name : String) (req : FlaskRequest) (request_id : Nat)
    (h : validate_request req = Except.ok none) :
    invoke_request_handler svc function_name req request_id =
      (if (headersGet req.headers ("X-Amz-Invocation-Type")).getD ("RequestResponse") = "Event"
        then Except.ok (HandlerResult.async
          (invoke_async_request request_id function_name (request_payload req)))
        else Except.ok (HandlerResult.sync
          (invoke_sync_request svc function_name (request_payload req)))) := by
  cases hdec : utf8Decode (normalizedBody req) with
  | none => simp [validate_request, hdec] at h
  | some payload =>
    have hp : request_payload req = payload := by simp [request_payload, hdec]
    simp only [invoke_request_handler, hdec, hp]

/-- Claim C1 witness: a validated request carrying
`X-Amz-Invocation-Type: Event` is dispatched to the asynchronous path. -/
theorem validated_request_dispatch_witness :
    invoke_request_handler sampleService ("foo") eventReq 5 =
      Except.ok (HandlerResult.async
        (invoke_async_request 5 ("foo") (request_payload eventReq))) := by
  have h := validated_request_dispatch sampleService ("foo") eventReq 5 (by decide)
  rw [h]
  have hc : (headersGet eventReq.headers ("X-Amz-Invocation-Type")).getD ("RequestResponse") =
      "Event" := by decide
  rw [if_pos hc]

/-- Claim C3: in the synchronous path, once the execution engine has
returned, the parsed outcome determines the response: a user error yields
status 200 with headers `Content-Type: application/json` and
`x-amz-function-error: Unhandled` and the captured response as body;
otherwise status 200 with `Content-Type: application/json`, the same body,
and no `x-amz-function-error` header. -/
theorem sync_outcome_shapes_response (svc : LocalLambdaInvokeService)
    (function_name request_data out : String)
    (h : svc.lambda_runner function_name request_data = some out) :
    (invoke_sync_request svc function_name request_data).response =
      (if (svc.get_lambda_output out).2.2 then
        service_response (some (svc.get_lambda_output out).1)
          [("Content-Type", "application/json"), ("x-amz-function-error", "Unhandled")] 200
      else
        service_response (some (svc.get_lambda_output out).1)
          [("Content-Type", "application/json")] 200) ∧
    headersGet (invoke_sync_request svc function_name request_data).response.headers
        ("x-amz-function-error") =
      (if (svc.get_lambda_output out).2.2 then some ("Unhandled") else none) := by
  constructor
  · simp only [invoke_sync_request, h]
    split <;> rfl
  · simp only [invoke_sync_request, h]
    split <;> rfl

/-- Claim C3 witness: against the fixture whose parser classifies the
outcome as a user error, the synchronous response is 200 with the
`x-amz-function-error: Unhandled` header; against the success fixture it is
200 with no such header. -/
theorem sync_outcome_shapes_response_witness :
    (invoke_sync_request errorService ("foo") (emptyObjectString)).response =
      service_response (some (emptyObjectString))
        [("Content-Type", "application/json"), ("x-amz-function-error", "Unhandled")] 200 ∧
    headersGet (invoke_sync_request sampleService ("foo") (emptyObjectString)).response.headers
        ("x-amz-function-error") = none := by
  constructor
  · have h := (sync_outcome_shapes_response errorService ("foo") (emptyObjectString)
      (emptyObjectString) rfl).1
    rw [h]
    rfl
  · have h := (sync_outcome_shapes_response sampleService ("foo") (emptyObjectString)
      (emptyObjectString) rfl).2
    rw [h]
    rfl

/-- Claim C4: in the synchronous path, the function-not-found response is
returned exactly when the execution engine raises `FunctionNotFound`; that
response is a 404 whose message names the missing function, and in that case
nothing is written to the stderr sink and the output parser plays no part in
the result. -/
theorem sync_function_not_found_iff (svc : LocalLambdaInvokeService)
    (function_name request_data : String) :
    ((invoke_sync_request svc function_name request_data).response =
        resource_not_found function_name ↔
      svc.lambda_runner function_name request_data = none) ∧
    (resource_not_found function_name).statusCode = 404 ∧
    (resource_not_found function_name).body =
      some (errorBody ("ResourceNotFound") ("Function not found: " ++ function_name)) ∧
    (svc.lambda_runner function_name request_data = none →
      (invoke_sync_request svc function_name request_data).stderr_after = svc.stderr ∧
      ∀ p : String → String × String × Bool,
        invoke_sync_request { svc with get_lambda_output := p } function_name request_data =
          invoke_sync_request svc function_name request_data) := by
  refine ⟨?_, rfl, rfl, ?_⟩
  · cases hr : svc.lambda_runner function_name request_data with
    | none => simp [invoke_sync_request, hr]
    | some out =>
      simp only [invoke_sync_request, hr]
      constructor
      · intro hresp
        exfalso
        revert hresp
        split <;>
          · intro hresp
            have h404 := congrArg ServiceResponse.statusCode hresp
            simp [service_response, resource_not_found, errorBody] at h404
      · intro hnone
        exact Option.noConfusion hnone
  · intro hnone
    refine ⟨by simp [invoke_sync_request, hnone], fun p => ?_⟩
    show invoke_sync_request
        { lambda_runner := svc.lambda_runner, get_lambda_output := p, stderr := svc.stderr }
        function_name request_data = invoke_sync_request svc function_name request_data
    simp [invoke_sync_request, hnone]

/-- Claim C4 witness: the sample service has no function `missing`, so the
synchronous path returns the 404 resource-not-found response for it, and its
status code is 404. -/
theorem sync_function_not_found_iff_witness :
    (invoke_sync_request sampleService ("missing") (emptyObjectString)).response =
      resource_not_found ("missing") ∧
    (resource_not_found ("missing")).statusCode = 404 :=
  ⟨(sync_function_not_found_iff sampleService ("missing") (emptyObjectString)).1.mpr rfl,
    (sync_function_not_found_iff sampleService ("missing") (emptyObjectString)).2.1⟩

/-- Claim C7: a request with an absent or empty body is treated by both
validation and dispatch as carrying the two-character UTF-8 text of the
empty JSON object; in particular the execution engine is invoked with that
payload for such requests. -/
theorem empty_body_invoked_with_empty_object (svc : LocalLambdaInvokeService)
    (function_name : String) (req : FlaskRequest) (request_id : Nat)
    (h : req.body = []) :
    request_payload req = emptyObjectString ∧
    emptyObjectString.length = 2 ∧
    utf8Decode emptyObjectBytes = some emptyObjectString ∧
    validate_request req = validate_request { req with body := emptyObjectBytes } ∧
    (match invoke_request_handler svc function_name req request_id with
      | Except.ok (HandlerResult.sync r) =>
          r.engine_calls = [(function_name, emptyObjectString)]
      | Except.ok (HandlerResult.async r) =>
          r.spawned.target_request_data = emptyObjectString
      | Except.error _ => False) := by
  have hnorm : normalizedBody req = emptyObjectBytes := by
    simp [normalizedBody, h]
  have hnorm2 : normalizedBody { req with body := emptyObjectBytes } = emptyObjectBytes := by
    simp [normalizedBody, emptyObjectBytes]
  have hdec : utf8Decode emptyObjectBytes = some emptyObjectString := by decide
  refine ⟨?_, by decide, hdec, ?_, ?_⟩
  · simp [request_payload, hnorm, hdec]
  · simp only [validate_request, hnorm, hnorm2]
  · simp only [invoke_request_handler, hnorm, hdec]
    by_cases hit :
      (headersGet req.headers ("X-Amz-Invocation-Type")).getD ("RequestResponse") = "Event"
    · rw [if_pos hit]
      show (invoke_async_request request_id function_name
          emptyObjectString).spawned.target_request_data = emptyObjectString
      rfl
    · rw [if_neg hit]
      show (invoke_sync_request svc function_name emptyObjectString).engine_calls =
        [(function_name, emptyObjectString)]
      exact invoke_sync_engine_calls svc function_name emptyObjectString

/-- Claim C7 witness: the empty-body request is validated as the empty JSON
object and, dispatched synchronously, leads to the engine being called with
that exact two-character payload. -/
theorem empty_body_invoked_with_empty_object_witness :
    request_payload emptyReq = emptyObjectString ∧
    (match invoke_request_handler sampleService ("foo") emptyReq 0 with
      | Except.ok (HandlerResult.sync r) =>
          r.engine_calls = [("foo", emptyObjectString)]
      | Except.ok (HandlerResult.async r) =>
          r.spawned.target_request_data = emptyObjectString
      | Except.error _ => False) :=
  ⟨(empty_body_invoked_with_empty_object sampleService ("foo") emptyReq 0 rfl).1,
    (empty_body_invoked_with_empty_object sampleService ("foo") emptyReq 0 rfl).2.2.2.2⟩

/-- Claim C8: in the synchronous path, whenever the parsed logs are
non-empty and a stderr sink was provided, the logs are appended to the sink
— on the user-error and success outcomes alike — and the write leaves the
HTTP response unchanged (the response is the same for every state of the
sink). -/
theorem sync_logs_written_to_stderr (svc : LocalLambdaInvokeService)
    (function_name request_data out : String)
    (hrun : svc.lambda_runner function_name request_data = some out)
    (hsink : svc.stderr.isSome)
    (hlogs : (svc.get_lambda_output out).2.1 ≠ "") :
    (invoke_sync_request svc function_name request_data).stderr_after =
      svc.stderr.map (fun written => written ++ [(svc.get_lambda_output out).2.1]) ∧
    (∀ sink : Option (List String),
      (invoke_sync_request { svc with stderr := sink } function_name request_data).response =
        (invoke_sync_request svc function_name request_data).response) := by
  refine ⟨?_, fun sink => invoke_sync_response_stderr_indep svc sink function_name request_data⟩
  simp only [invoke_sync_request, hrun]
  split <;> simp [hsink, hlogs]

/-- Claim C8 witness: against the sample service (stderr sink present, parser
logs non-empty, success outcome) the logs are appended to the sink, and the
response equals the one computed with no sink at all. -/
theorem sync_logs_written_to_stderr_witness :
    (invoke_sync_request sampleService ("foo") (emptyObjectString)).stderr_after =
      sampleService.stderr.map
        (fun written => written ++ [(sampleService.get_lambda_output (emptyObjectString)).2.1]) ∧
    (invoke_sync_request { sampleService with stderr := none } ("foo")
        (emptyObjectString)).response =
      (invoke_sync_request sampleService ("foo") (emptyObjectString)).response :=
  ⟨(sync_logs_written_to_stderr sampleService ("foo") (emptyObjectString) (emptyObjectString)
      rfl rfl (by decide)).1,
    (sync_logs_written_to_stderr sampleService ("foo") (emptyObjectString) (emptyObjectString)
      rfl rfl (by decide)).2 none⟩

/-- Claim C5 counterexample: for the concrete request whose body is the
single byte 0xFF, validation does not return the error response of the first
failing check (the JSON 400): the UTF-8 decode raises first, so validation
escapes with an exception instead of any check's response. -/
theorem validation_first_failure_counterexample :
    validate_request badUtfReq ≠ Except.ok (firstFailure validationChecks badUtfReq) := by
  intro hcontra
  rw [show validate_request badUtfReq = Except.error PyException.unicodeDecodeError
    from by decide] at hcontra
  exact Except.noConfusion hcontra

/-- Claim C5 (amended): for every inbound request whose normalized body is
valid UTF-8, validation applies exactly the four checks in the fixed order —
body parses as JSON (empty body treated as the empty object), no query
parameters, `X-Amz-Log-Type` equal to `None` if present,
`X-Amz-Invocation-Type` in the supported set if present — returning the
error response of the first failing check, and passing exactly when all four
checks succeed. -/
theorem validation_is_first_failure_of_four_checks (req : FlaskRequest)
    (h : (utf8Decode (normalizedBody req)).isSome) :
    validate_request req = Except.ok (firstFailure validationChecks req) ∧
    validationChecks.length = 4 ∧
    (firstFailure validationChecks req = none ↔
      ∀ c ∈ validationChecks, c req = none) := by
  refine ⟨?_, rfl, firstFailure_eq_none_iff validationChecks req⟩
  cases hdec : utf8Decode (normalizedBody req) with
  | none => simp [hdec] at h
  | some payload =>
    have hp : request_payload req = payload := by simp [request_payload, hdec]
    simp only [validate_request, hdec, validationChecks, firstFailure,
      jsonBodyCheck, queryParamsCheck, logTypeCheck, invocationTypeCheck, hp]
    by_cases hj : jsonParses payload = false
    · simp [hj]
    · simp only [hj, if_false, if_neg hj]
      by_cases hq : req.args ≠ []
      · simp [hq]
      · simp only [hq, if_neg hq, if_false]
        by_cases hl : (headersGet req.headers ("X-Amz-Log-Type")).getD ("None") ≠ "None"
        · simp [hl]
        · simp only [hl, if_neg hl, if_false]
          by_cases hi : (headersGet req.headers ("X-Amz-Invocation-Type")).getD
              ("RequestResponse") ∉ (["Event", "RequestResponse"] : List String)
          · simp [hi]
          · rcases List.mem_cons.mp (not_not.mp hi) with h1 | h2
            · simp [h1]
            · rcases List.mem_cons.mp h2 with h3 | h4
              · simp [h3]
              · simp at h4

/-- Claim C5 witness: the empty request (empty body, no query parameters, no
headers) has a UTF-8 body, its validation verdict coincides with the
four-check pipeline's verdict, and both pass. -/
theorem validation_is_first_failure_witness :
    validate_request emptyReq = Except.ok (firstFailure validationChecks emptyReq) ∧
    validate_request emptyReq = Except.ok none :=
  ⟨(validation_is_first_failure_of_four_checks emptyReq (by decide)).1, by decide⟩

/-- Claim C6 counterexample: the concrete request with query parameter
`a=1` and the non-UTF-8 body 0xFF does not receive the 400
invalid-request-content response — validation escapes with the decode
exception, so the claim fails for it as stated. -/
theorem query_params_counterexample :
    badUtfQueryReq.args ≠ [] ∧
    ¬ ∃ msg : String, validate_request badUtfQueryReq =
        Except.ok (some (invalid_request_content msg)) := by
  refine ⟨by decide, ?_⟩
  rintro ⟨msg, hmsg⟩
  rw [show validate_request badUtfQueryReq = Except.error PyException.unicodeDecodeError
    from by decide] at hmsg
  exact Except.noConfusion hmsg

/-- Claim C6 (amended): every request that carries at least one query
parameter and whose normalized body is valid UTF-8 receives the 400-class
invalid-request-content response, whatever the body content (parsable JSON
or not) and whatever the header values. -/
theorem query_params_always_invalid_request (req : FlaskRequest)
    (hargs : req.args ≠ [])
    (hdec : (utf8Decode (normalizedBody req)).isSome) :
    ∃ msg : String,
      validate_request req = Except.ok (some (invalid_request_content msg)) ∧
      (invalid_request_content msg).statusCode = 400 := by
  cases hd : utf8Decode (normalizedBody req) with
  | none => simp [hd] at hdec
  | some payload =>
    by_cases hj : jsonParses payload = false
    · refine ⟨("Could not parse request body into json: No JSON object could be decoded"),
        ?_, rfl⟩
      simp [validate_request, hd, hj]
    · refine ⟨("Query Parameters are not supported"), ?_, rfl⟩
      simp [validate_request, hd, hj, hargs]

/-- Claim C6 witness: the request with query parameter `a=1` and an empty
(hence UTF-8, JSON-parsable) body receives a 400 invalid-request-content
response. -/
theorem query_params_always_invalid_request_witness :
    ∃ msg : String,
      validate_request queryReq = Except.ok (some (invalid_request_content msg)) ∧
      (invalid_request_content msg).statusCode = 400 :=
  query_params_always_invalid_request queryReq (by decide) (by decide)
